import Mathlib

/-!
Shallow embedding of the `auth` gRPC service (`src/auth/src/server.rs`):
credential verification, token issuance, session persistence in redis with
expiry, and session validation, together with proofs about the two handlers
`login` and `validate`.

Modelling conventions:
* Machine randomness (`Uuid::new_v4()`), wall-clock time (`SystemTime::now()`)
  and the fallibility of the redis connection pool are passed in explicitly as
  environment records (`LoginEnv`, `ValidateEnv`).
* The redis store is an association list from keys to byte strings together
  with the expiry (in seconds) that was handed to `SETEX`; redis `GET` on a
  missing key yields `Value::Nil`.
* A `.unwrap()` on an `Err` in the Rust source is modelled by the outcome
  `RpcOutcome.aborted` (the handler panics instead of returning a status).
-/

namespace WebinarAuth

/-! ### Token issuance: `Uuid::new_v4().hyphenated().to_string()` -/

/-- Lowercase hexadecimal digit character for `n < 16`, as produced by the
uuid crate's hyphenated formatter. -/
def hexDigit (n : Nat) : Char :=
  if n < 10 then Char.ofNat (48 + n) else Char.ofNat (87 + n)

/-- Big-endian, zero-padded hexadecimal rendering of `n` on `len` digits. -/
def toHexPad : Nat → Nat → List Char
  | _, 0 => []
  | n, len + 1 => toHexPad (n / 16) len ++ [hexDigit (n % 16)]

/-- `Uuid::hyphenated().to_string()`: the 128-bit value rendered as 32 lowercase
hex digits in five hyphen-separated groups of sizes 8-4-4-4-12. -/
def hyphenated (u : Nat) : String :=
  let h := toHexPad (u % 2 ^ 128) 32
  String.mk (h.take 8 ++ ('-' :: ((h.drop 8).take 4 ++ ('-' :: ((h.drop 12).take 4
    ++ ('-' :: ((h.drop 16).take 4 ++ ('-' :: h.drop 20))))))))

/-- Is `c` a lowercase hexadecimal digit? -/
def isHexChar (c : Char) : Bool :=
  (48 ≤ c.toNat && c.toNat ≤ 57) || (97 ≤ c.toNat && c.toNat ≤ 102)

/-- Consume exactly `n` hex digits from the front of `cs`, returning the rest. -/
def hexRun : Nat → List Char → Option (List Char)
  | 0, cs => some cs
  | _ + 1, [] => none
  | n + 1, c :: cs => if isHexChar c then hexRun n cs else none

/-- Checker for the issuer's token format on a character list: five
hyphen-separated groups of lowercase hex digits with lengths 8-4-4-4-12. -/
def isHyphenatedHexList (cs : List Char) : Bool :=
  match hexRun 8 cs with
  | some ('-' :: r1) =>
    match hexRun 4 r1 with
    | some ('-' :: r2) =>
      match hexRun 4 r2 with
      | some ('-' :: r3) =>
        match hexRun 4 r3 with
        | some ('-' :: r4) => hexRun 12 r4 == some []
        | _ => false
      | _ => false
    | _ => false
  | _ => false

/-- Checker for the issuer's token format (uuid hyphenated form). -/
def isHyphenatedHex (s : String) : Bool :=
  isHyphenatedHexList s.data

/-! ### UTF-8 encoding and decoding

The Rust code stores the `String` `session_id` in redis (as its UTF-8 bytes)
and on `validate` runs `String::from_utf8` over the fetched bytes.  We model
byte strings as `List Nat` and give an executable RFC 3629 encoder/decoder. -/

/-- Bytes of a redis value. -/
abbrev Bytes := List Nat

/-- UTF-8 encoding of a single unicode scalar value. -/
def utf8EncodeChar (c : Char) : Bytes :=
  let n := c.toNat
  if n < 0x80 then [n]
  else if n < 0x800 then [0xC0 + n / 64, 0x80 + n % 64]
  else if n < 0x10000 then [0xE0 + n / 4096, 0x80 + n / 64 % 64, 0x80 + n % 64]
  else [0xF0 + n / 262144, 0x80 + n / 4096 % 64, 0x80 + n / 64 % 64, 0x80 + n % 64]

/-- UTF-8 encoding of a string (Rust `String::into_bytes`). -/
def utf8Encode (s : String) : Bytes := s.data.flatMap utf8EncodeChar

/-- Is `b` a UTF-8 continuation byte? -/
def isCont (b : Nat) : Bool := 0x80 ≤ b && b ≤ 0xBF

/-- Allowed range of the second byte after a three-byte leading byte `b`
(RFC 3629: `E0` restricts to `A0..BF`, `ED` to `80..9F`, excluding overlong
forms and surrogates). -/
def lead3Ok (b b2 : Nat) : Bool :=
  if b == 0xE0 then 0xA0 ≤ b2 && b2 ≤ 0xBF
  else if b == 0xED then 0x80 ≤ b2 && b2 ≤ 0x9F
  else isCont b2

/-- Allowed range of the second byte after a four-byte leading byte `b`
(RFC 3629: `F0` restricts to `90..BF`, `F4` to `80..8F`). -/
def lead4Ok (b b2 : Nat) : Bool :=
  if b == 0xF0 then 0x90 ≤ b2 && b2 ≤ 0xBF
  else if b == 0xF4 then 0x80 ≤ b2 && b2 ≤ 0x8F
  else isCont b2

/-- Worker of the strict RFC 3629 UTF-8 decoder, returning the decoded scalar
values or `none` on ill-formed input.  `fuel` only bounds the recursion depth
for termination; every step consumes at least one byte, so any
`fuel ≥ bs.length` computes the decoding of `bs`. -/
def utf8DecodeLoop : Nat → Bytes → Option (List Nat)
  | _, [] => some []
  | 0, _ :: _ => none
  | fuel + 1, b :: rest =>
    if b ≤ 0x7F then (utf8DecodeLoop fuel rest).map (b :: ·)
    else if 0xC2 ≤ b && b ≤ 0xDF then
      if 1 ≤ rest.length && isCont (rest.getD 0 0) then
        (utf8DecodeLoop fuel (rest.drop 1)).map
          (((b - 0xC0) * 64 + (rest.getD 0 0 - 0x80)) :: ·)
      else none
    else if 0xE0 ≤ b && b ≤ 0xEF then
      if 2 ≤ rest.length && lead3Ok b (rest.getD 0 0) && isCont (rest.getD 1 0) then
        (utf8DecodeLoop fuel (rest.drop 2)).map
          (((b - 0xE0) * 4096 + (rest.getD 0 0 - 0x80) * 64 + (rest.getD 1 0 - 0x80)) :: ·)
      else none
    else if 0xF0 ≤ b && b ≤ 0xF4 then
      if 3 ≤ rest.length && lead4Ok b (rest.getD 0 0) && isCont (rest.getD 1 0)
          && isCont (rest.getD 2 0) then
        (utf8DecodeLoop fuel (rest.drop 3)).map
          (((b - 0xF0) * 262144 + (rest.getD 0 0 - 0x80) * 4096
            + (rest.getD 1 0 - 0x80) * 64 + (rest.getD 2 0 - 0x80)) :: ·)
      else none
    else none

/-- Scalar values of a byte string, or `none` when it is not valid UTF-8. -/
def utf8DecodeAux (bs : Bytes) : Option (List Nat) :=
  utf8DecodeLoop bs.length bs

/-- `String::from_utf8`: decode a byte string into a string, or fail. -/
def utf8Decode (bs : Bytes) : Option String :=
  (utf8DecodeAux bs).map fun cps => String.mk (cps.map Char.ofNat)

/-- Message of the Rust `FromUtf8Error` (`err.to_string()`); the precise
index/length details of the Rust rendering are abstracted, no observable
behaviour in the handlers depends on this text. -/
def utf8ErrorMsg (_bs : Bytes) : String := "invalid utf-8 sequence"

/-! ### The redis session store -/

/-- One key-value pair in redis, remembering the expiry (in seconds) that was
passed to `SETEX` when it was written. -/
structure StoreEntry where
  key : String
  value : Bytes
  ttlSeconds : Nat
  deriving DecidableEq

/-- State of the external key-value store.  Lookup takes the first matching
entry, so prepending implements `SETEX`'s overwrite. -/
structure Store where
  entries : List StoreEntry
  deriving DecidableEq

/-- Value currently stored under key `k`, if any. -/
def Store.get? (s : Store) (k : String) : Option Bytes :=
  (s.entries.find? fun e => e.key == k).map (·.value)

/-- `SETEX k ttl v`: store `v` under `k` with expiry `ttl` seconds. -/
def Store.setEx (s : Store) (k : String) (v : Bytes) (ttl : Nat) : Store :=
  ⟨⟨k, v, ttl⟩ :: s.entries⟩

/-- The `r2d2_redis::redis::Value` reply type. -/
inductive RedisValue
  | Nil
  | Int (i : Int)
  | Data (bytes : Bytes)
  | Bulk (items : List RedisValue)
  | Status (s : String)
  | Okay

/-- The derived `Debug` rendering of `redis::Value`, as interpolated by
`format!("wrong redis response: \x7b:?\x7d", value)`. -/
def RedisValue.debugFmt : RedisValue → String
  | .Nil => "Nil"
  | .Int i => "Int(" ++ toString i ++ ")"
  | .Data bs => "Data(" ++ toString bs ++ ")"
  | .Bulk vs => "Bulk(" ++ toString (vs.attach.map fun v => v.1.debugFmt) ++ ")"
  | .Status s => "Status(" ++ s ++ ")"
  | .Okay => "Okay"
decreasing_by
  simp_wf
  have := List.sizeOf_lt_of_mem v.2
  omega

/-- Reply of redis `GET k`: the stored bytes as `Value::Data`, or `Value::Nil`
when the key is absent (never issued, or its TTL elapsed and the store dropped
it). -/
def redisGet (s : Store) (k : String) : RedisValue :=
  match s.get? k with
  | some v => .Data v
  | none => .Nil

/-! ### Credentials -/

/-- The fixed credential list `USERS`. -/
def USERS : List (String × String) := [("root", "admin"), ("user", "user")]

/-- The `PASSWORDS` map is built by inserting every `USERS` entry into a
`HashMap`; usernames are unique, so an association-list lookup over `USERS`
is the same map. -/
def passwordsLookup (u : String) : Option String :=
  (USERS.find? fun p => p.1 == u).map (·.2)

/-! ### The service and its two handlers -/

/-- gRPC status codes appearing in the handlers. -/
inductive GrpcCode
  | unauthenticated
  | internalErr
  deriving DecidableEq

/-- Result of one RPC handler call: a response, an error `Status`, or a panic
of the handler task (a `.unwrap()` on an `Err`). -/
inductive RpcOutcome (α : Type)
  | ok (value : α)
  | err (code : GrpcCode) (msg : String)
  | aborted
  deriving DecidableEq

/-- Status code of an outcome, if it is a response or an error. -/
def RpcOutcome.code? : RpcOutcome α → Option GrpcCode
  | .ok _ => none
  | .err c _ => some c
  | .aborted => none

/-- `LoginResponse { token, expire_at }` (timestamps in whole seconds). -/
structure LoginResponse where
  token : String
  expire_at : Nat
  deriving DecidableEq

/-- `ValidateResponse {}` -/
structure ValidateResponse where
  deriving DecidableEq

/-- `AuthService { session_id, pool }`; the pool's behaviour lives in the
per-call environments. -/
structure AuthService where
  session_id : String
  deriving DecidableEq

/-- `AuthService::new`: draw a fresh uuid as this instance's identity. -/
def AuthService.new (u : Nat) : AuthService :=
  { session_id := hyphenated u }

/-- Environment of one `login` call: whether `pool.get()` succeeds, whether
the `SETEX` round trip succeeds, the uuid drawn by `Uuid::new_v4()`, and the
wall clock read by `SystemTime::now()` (seconds). -/
structure LoginEnv where
  poolOk : Bool
  setOk : Bool
  uuid : Nat
  now : Nat

/-- Environment of one `validate` call: whether `pool.get()` succeeds, whether
the redis `GET` round trip succeeds, and the connection error's message
otherwise. -/
structure ValidateEnv where
  poolOk : Bool
  connOk : Bool
  connErrMsg : String

/-- The `login` handler.  Mirrors `AuthService::login`:
credential check against `PASSWORDS`, then `Uuid::new_v4()` for the token,
`self.pool.get().unwrap()`, `conn.set_ex(&token, &self.session_id,
ttl.as_millis() as usize).unwrap()` with `ttl = Duration::from_secs(60)`
(so the number handed to the seconds-based `SETEX` is `60 * 1000`), and
finally `expire_at = SystemTime::now() + ttl`. -/
def login (svc : AuthService) (env : LoginEnv) (store : Store)
    (user password : String) : RpcOutcome LoginResponse × Store :=
  match passwordsLookup user with
  | none => (.err .unauthenticated "user not found", store)
  | some pw =>
    if pw != password then (.err .unauthenticated "wrong password", store)
    else
      let token := hyphenated env.uuid
      if !env.poolOk then (.aborted, store)
      else
        let ttl := 60
        if !env.setOk then (.aborted, store)
        else
          let store' := store.setEx token (utf8Encode svc.session_id) (ttl * 1000)
          (.ok { token := token, expire_at := env.now + ttl }, store')

/-- The `validate` handler.  Mirrors `AuthService::validate`:
`self.pool.get().unwrap()`, then `conn.get(&token)`; an `Err` from the store
becomes `Status::unauthenticated(err.to_string())`; `Value::Data` is decoded
with `String::from_utf8` (failure: `Status::internal`), compared against
`self.session_id`; any other reply becomes
`Status::unauthenticated("wrong redis response: ...")`. -/
def validate (svc : AuthService) (env : ValidateEnv) (store : Store)
    (token : String) : RpcOutcome ValidateResponse × Store :=
  if !env.poolOk then (.aborted, store)
  else if !env.connOk then (.err .unauthenticated env.connErrMsg, store)
  else
    match redisGet store token with
    | .Data bytes =>
      match utf8Decode bytes with
      | none => (.err .internalErr (utf8ErrorMsg bytes), store)
      | some sid =>
        if sid != svc.session_id then
          (.err .unauthenticated "wrong session ID", store)
        else
          (.ok {}, store)
    | v => (.err .unauthenticated ("wrong redis response: " ++ v.debugFmt), store)

/-! ### Helper lemmas: the token format -/

theorem toHexPad_length : ∀ (len n : Nat), (toHexPad n len).length = len := by
  intro len
  induction len with
  | zero => intro n; rfl
  | succ k ih => intro n; simp [toHexPad, ih]

theorem hexDigit_hexChar : ∀ m < 16, isHexChar (hexDigit m) = true := by decide

theorem hexDigit_ascii : ∀ m < 16, (hexDigit m).toNat ≤ 0x7F := by decide

theorem toHexPad_mem :
    ∀ (len n : Nat) (c : Char), c ∈ toHexPad n len →
      isHexChar c = true ∧ c.toNat ≤ 0x7F := by
  intro len
  induction len with
  | zero => intro n c hc; cases hc
  | succ k ih =>
    intro n c hc
    rcases List.mem_append.mp hc with h | h
    · exact ih (n / 16) c h
    · have hd : c = hexDigit (n % 16) := by simpa using h
      have hlt : n % 16 < 16 := Nat.mod_lt _ (by norm_num)
      exact hd ▸ ⟨hexDigit_hexChar _ hlt, hexDigit_ascii _ hlt⟩

theorem hexRun_append {xs : List Char} (hhex : ∀ c ∈ xs, isHexChar c = true) :
    ∀ ys, hexRun xs.length (xs ++ ys) = some ys := by
  induction xs with
  | nil => intro ys; rfl
  | cons c cs ih =>
    intro ys
    have hc : isHexChar c = true := hhex c (List.mem_cons_self c cs)
    simp only [List.cons_append, List.length_cons, hexRun, hc, if_true]
    exact ih (fun d hd => hhex d (List.mem_cons_of_mem c hd)) ys

theorem isHyphenatedHexList_groups (a b c d e : List Char)
    (ha : a.length = 8) (hb : b.length = 4) (hc : c.length = 4) (hd : d.length = 4)
    (he : e.length = 12)
    (hhex : ∀ x, (x ∈ a ∨ x ∈ b ∨ x ∈ c ∨ x ∈ d ∨ x ∈ e) → isHexChar x = true) :
    isHyphenatedHexList
      (a ++ ('-' :: (b ++ ('-' :: (c ++ ('-' :: (d ++ ('-' :: e)))))))) = true := by
  have r8 : ∀ ys, hexRun 8 (a ++ ys) = some ys := by
    intro ys
    have := @hexRun_append a (fun x hx => hhex x (Or.inl hx)) ys
    rwa [ha] at this
  have rb : ∀ ys, hexRun 4 (b ++ ys) = some ys := by
    intro ys
    have := @hexRun_append b (fun x hx => hhex x (Or.inr (Or.inl hx))) ys
    rwa [hb] at this
  have rc : ∀ ys, hexRun 4 (c ++ ys) = some ys := by
    intro ys
    have := @hexRun_append c (fun x hx => hhex x (Or.inr (Or.inr (Or.inl hx)))) ys
    rwa [hc] at this
  have rd : ∀ ys, hexRun 4 (d ++ ys) = some ys := by
    intro ys
    have := @hexRun_append d (fun x hx => hhex x (Or.inr (Or.inr (Or.inr (Or.inl hx))))) ys
    rwa [hd] at this
  have re : hexRun 12 e = some [] := by
    have := @hexRun_append e (fun x hx => hhex x (Or.inr (Or.inr (Or.inr (Or.inr hx))))) []
    rwa [he, List.append_nil] at this
  simp only [isHyphenatedHexList, r8, rb, rc, rd, re, beq_self_eq_true]

/-- Every token produced by the issuer matches the hyphenated-hex format. -/
theorem hyphenated_isHyphenatedHex (u : Nat) : isHyphenatedHex (hyphenated u) = true := by
  have hlen : (toHexPad (u % 2 ^ 128) 32).length = 32 := toHexPad_length 32 _
  have hhex : ∀ c ∈ toHexPad (u % 2 ^ 128) 32, isHexChar c = true :=
    fun c hc => (toHexPad_mem 32 _ c hc).1
  show isHyphenatedHexList _ = true
  apply isHyphenatedHexList_groups
  · rw [List.length_take, hlen]; omega
  · rw [List.length_take, List.length_drop, hlen]; omega
  · rw [List.length_take, List.length_drop, hlen]; omega
  · rw [List.length_take, List.length_drop, hlen]; omega
  · rw [List.length_drop, hlen]
  · intro x hx
    rcases hx with hx | hx | hx | hx | hx
    · exact hhex x (List.mem_of_mem_take hx)
    · exact hhex x (List.mem_of_mem_drop (List.mem_of_mem_take hx))
    · exact hhex x (List.mem_of_mem_drop (List.mem_of_mem_take hx))
    · exact hhex x (List.mem_of_mem_drop (List.mem_of_mem_take hx))
    · exact hhex x (List.mem_of_mem_drop hx)

/-- Every character of an issued token is ASCII. -/
theorem hyphenated_ascii (u : Nat) :
    ∀ c ∈ (hyphenated u).data, c.toNat ≤ 0x7F := by
  intro c hc
  have hmem : c = '-' ∨ c ∈ toHexPad (u % 2 ^ 128) 32 := by
    have hc' : c ∈ (toHexPad (u % 2 ^ 128) 32).take 8
        ++ ('-' :: (((toHexPad (u % 2 ^ 128) 32).drop 8).take 4
        ++ ('-' :: (((toHexPad (u % 2 ^ 128) 32).drop 12).take 4
        ++ ('-' :: (((toHexPad (u % 2 ^ 128) 32).drop 16).take 4
        ++ ('-' :: (toHexPad (u % 2 ^ 128) 32).drop 20))))))) := hc
    simp only [List.mem_append, List.mem_cons] at hc'
    rcases hc' with h | h | h | h | h | h | h | h | h
    · exact Or.inr (List.mem_of_mem_take h)
    · exact Or.inl h
    · exact Or.inr (List.mem_of_mem_drop (List.mem_of_mem_take h))
    · exact Or.inl h
    · exact Or.inr (List.mem_of_mem_drop (List.mem_of_mem_take h))
    · exact Or.inl h
    · exact Or.inr (List.mem_of_mem_drop (List.mem_of_mem_take h))
    · exact Or.inl h
    · exact Or.inr (List.mem_of_mem_drop h)
  rcases hmem with h | h
  · subst h; decide
  · exact (toHexPad_mem 32 _ c h).2

/-! ### Helper lemmas: UTF-8 round trip on ASCII strings -/

theorem utf8EncodeChar_ascii {c : Char} (h : c.toNat ≤ 0x7F) :
    utf8EncodeChar c = [c.toNat] := by
  unfold utf8EncodeChar
  rw [if_pos]
  omega

theorem flatMap_utf8EncodeChar_ascii :
    ∀ cs : List Char, (∀ c ∈ cs, c.toNat ≤ 0x7F) →
      cs.flatMap utf8EncodeChar = cs.map Char.toNat := by
  intro cs
  induction cs with
  | nil => intro _; rfl
  | cons c cs ih =>
    intro h
    rw [List.flatMap_cons, utf8EncodeChar_ascii (h c (List.mem_cons_self c cs)),
      List.singleton_append, List.map_cons, ih (fun d hd => h d (List.mem_cons_of_mem c hd))]

theorem utf8DecodeLoop_ascii :
    ∀ (bs : Bytes) (fuel : Nat), bs.length ≤ fuel → (∀ b ∈ bs, b ≤ 0x7F) →
      utf8DecodeLoop fuel bs = some bs := by
  intro bs
  induction bs with
  | nil => intro fuel _ _; cases fuel <;> rfl
  | cons b rest ih =>
    intro fuel hf h
    cases fuel with
    | zero => simp at hf
    | succ f =>
      have hb : b ≤ 0x7F := h b (List.mem_cons_self b rest)
      have hrest : utf8DecodeLoop f rest = some rest :=
        ih f (by simpa using hf) (fun d hd => h d (List.mem_cons_of_mem b hd))
      simp only [utf8DecodeLoop, if_pos hb, hrest, Option.map_some']

/-- `String::from_utf8` inverts the byte encoding of any ASCII string. -/
theorem utf8Decode_utf8Encode_ascii (s : String) (h : ∀ c ∈ s.data, c.toNat ≤ 0x7F) :
    utf8Decode (utf8Encode s) = some s := by
  obtain ⟨l⟩ := s
  unfold utf8Decode utf8Encode utf8DecodeAux
  rw [flatMap_utf8EncodeChar_ascii l h,
    utf8DecodeLoop_ascii (l.map Char.toNat) (l.map Char.toNat).length le_rfl
      (by intro b hb; obtain ⟨c, hc, rfl⟩ := List.mem_map.mp hb; exact h c hc),
    Option.map_some']
  congr 1
  rw [List.map_map]
  simp only [Function.comp_def, Char.ofNat_toNat, List.map_id']

/-! ### Helper lemmas: the store -/

theorem Store.get?_setEx_self (s : Store) (k : String) (v : Bytes) (t : Nat) :
    (s.setEx k v t).get? k = some v := by
  simp [Store.get?, Store.setEx]

/-! ### Helper lemmas: case analysis of `login` -/

theorem login_eq_unknown_user (svc : AuthService) (env : LoginEnv) (store : Store)
    (user pass : String) (h : passwordsLookup user = none) :
    login svc env store user pass = (.err .unauthenticated "user not found", store) := by
  unfold login
  rw [h]

theorem login_eq_wrong_password (svc : AuthService) (env : LoginEnv) (store : Store)
    (user pass pw : String) (h : passwordsLookup user = some pw) (hne : pw ≠ pass) :
    login svc env store user pass = (.err .unauthenticated "wrong password", store) := by
  unfold login
  rw [h]
  simp [hne]

theorem login_eq_pool_abort (svc : AuthService) (env : LoginEnv) (store : Store)
    (user pass : String) (h : passwordsLookup user = some pass)
    (hpool : env.poolOk = false) :
    login svc env store user pass = (.aborted, store) := by
  unfold login
  rw [h]
  simp [hpool]

theorem login_eq_set_abort (svc : AuthService) (env : LoginEnv) (store : Store)
    (user pass : String) (h : passwordsLookup user = some pass)
    (hpool : env.poolOk = true) (hset : env.setOk = false) :
    login svc env store user pass = (.aborted, store) := by
  unfold login
  rw [h]
  simp [hpool, hset]

theorem login_eq_success (svc : AuthService) (env : LoginEnv) (store : Store)
    (user pass : String) (h : passwordsLookup user = some pass)
    (hpool : env.poolOk = true) (hset : env.setOk = true) :
    login svc env store user pass =
      (.ok { token := hyphenated env.uuid, expire_at := env.now + 60 },
        store.setEx (hyphenated env.uuid) (utf8Encode svc.session_id) (60 * 1000)) := by
  unfold login
  rw [h]
  simp [hpool, hset]

/-! ### Helper lemmas: case analysis of `validate` -/

theorem validate_eq_pool_abort (svc : AuthService) (env : ValidateEnv) (store : Store)
    (token : String) (hpool : env.poolOk = false) :
    validate svc env store token = (.aborted, store) := by
  unfold validate
  simp [hpool]

theorem validate_eq_conn_error (svc : AuthService) (env : ValidateEnv) (store : Store)
    (token : String) (hpool : env.poolOk = true) (hconn : env.connOk = false) :
    validate svc env store token = (.err .unauthenticated env.connErrMsg, store) := by
  unfold validate
  simp [hpool, hconn]

theorem validate_eq_not_found (svc : AuthService) (env : ValidateEnv) (store : Store)
    (token : String) (hpool : env.poolOk = true) (hconn : env.connOk = true)
    (hget : store.get? token = none) :
    validate svc env store token =
      (.err .unauthenticated "wrong redis response: Nil", store) := by
  unfold validate redisGet
  rw [hget]
  simp only [hpool, hconn, Bool.not_true, RedisValue.debugFmt]
  rw [if_neg (by simp), if_neg (by simp)]
  have hmsg : ("wrong redis response: " ++ "Nil" : String) = "wrong redis response: Nil" := by
    decide
  rw [hmsg]

theorem validate_eq_decode_error (svc : AuthService) (env : ValidateEnv) (store : Store)
    (token : String) (bs : Bytes) (hpool : env.poolOk = true) (hconn : env.connOk = true)
    (hget : store.get? token = some bs) (hdec : utf8Decode bs = none) :
    validate svc env store token = (.err .internalErr (utf8ErrorMsg bs), store) := by
  unfold validate redisGet
  rw [hget]
  simp [hpool, hconn, hdec]

theorem validate_eq_owner_mismatch (svc : AuthService) (env : ValidateEnv) (store : Store)
    (token : String) (bs : Bytes) (sid : String) (hpool : env.poolOk = true)
    (hconn : env.connOk = true) (hget : store.get? token = some bs)
    (hdec : utf8Decode bs = some sid) (hne : sid ≠ svc.session_id) :
    validate svc env store token = (.err .unauthenticated "wrong session ID", store) := by
  unfold validate redisGet
  rw [hget]
  simp [hpool, hconn, hdec, hne]

theorem validate_eq_owner_match (svc : AuthService) (env : ValidateEnv) (store : Store)
    (token : String) (bs : Bytes) (hpool : env.poolOk = true) (hconn : env.connOk = true)
    (hget : store.get? token = some bs) (hdec : utf8Decode bs = some svc.session_id) :
    validate svc env store token = (.ok ⟨⟩, store) := by
  unfold validate redisGet
  rw [hget]
  simp [hpool, hconn, hdec]

/-! ## Claims -/

/-- C1: with the store reachable, `validate` succeeds (empty response) iff the
session store holds an entry for the token whose stored owner value decodes to
the instance identity of the answering instance; and a token stored under a
different instance identity (as after a restart) fails with UNAUTHENTICATED
"wrong session ID". -/
theorem validate_ok_iff_owned (u v : Nat) (env : ValidateEnv) (store : Store)
    (token : String) (hp : env.poolOk = true) (hc : env.connOk = true) :
    ((validate (AuthService.new u) env store token).1 = .ok ⟨⟩ ↔
      ∃ bs, store.get? token = some bs ∧
        utf8Decode bs = some (AuthService.new u).session_id) ∧
    (store.get? token = some (utf8Encode (hyphenated v)) → hyphenated v ≠ hyphenated u →
      (validate (AuthService.new u) env store token).1 =
        .err .unauthenticated "wrong session ID") := by
  constructor
  · constructor
    · intro hok
      rcases hbs : store.get? token with _ | bs
      · rw [validate_eq_not_found _ _ _ _ hp hc hbs] at hok
        simp at hok
      · rcases hdec : utf8Decode bs with _ | sid
        · rw [validate_eq_decode_error _ _ _ _ bs hp hc hbs hdec] at hok
          simp at hok
        · by_cases hsid : sid = (AuthService.new u).session_id
          · exact ⟨bs, hbs ▸ rfl, by rw [hdec, hsid]⟩
          · rw [validate_eq_owner_mismatch _ _ _ _ bs sid hp hc hbs hdec hsid] at hok
            simp at hok
    · rintro ⟨bs, hbs, hdec⟩
      rw [validate_eq_owner_match _ _ _ _ bs hp hc hbs hdec]
  · intro hst hne
    have hdec : utf8Decode (utf8Encode (hyphenated v)) = some (hyphenated v) :=
      utf8Decode_utf8Encode_ascii _ (hyphenated_ascii v)
    rw [validate_eq_owner_mismatch (AuthService.new u) env store token
      (utf8Encode (hyphenated v)) (hyphenated v) hp hc hst hdec hne]

/-- Witness for C1: a concrete store holding the token under the answering
instance's identity validates successfully. -/
theorem validate_ok_iff_owned_witness :
    (validate (AuthService.new 3) { poolOk := true, connOk := true, connErrMsg := "boom" }
      (Store.setEx ⟨[]⟩ "tok" (utf8Encode (hyphenated 3)) 60000) "tok").1 = .ok ⟨⟩ :=
  ((validate_ok_iff_owned 3 4 { poolOk := true, connOk := true, connErrMsg := "boom" }
      (Store.setEx ⟨[]⟩ "tok" (utf8Encode (hyphenated 3)) 60000) "tok" rfl rfl).1).mpr
    ⟨utf8Encode (hyphenated 3), Store.get?_setEx_self _ _ _ _,
      utf8Decode_utf8Encode_ascii _ (hyphenated_ascii 3)⟩

/-- C2 (code bug): the handler passes `ttl.as_millis() as usize` (= 60000) to
the seconds-based `SETEX`, so the store-enforced expiry of a session written
by a successful `login` is 60000 seconds, not the claimed 60 seconds. -/
theorem login_setex_ttl_60000 :
    ((login (AuthService.new 0) { poolOk := true, setOk := true, uuid := 7, now := 100 }
        ⟨[]⟩ "root" "admin").2.entries.map (·.ttlSeconds) = [60000]) ∧
      (60000 : Nat) ≠ 60 := by
  constructor
  · rfl
  · decide

/-- C3: a token returned by a successful `login` immediately passed to
`validate` on the same instance, with the store state unchanged in between,
succeeds. -/
theorem login_then_validate_ok (u : Nat) (env : LoginEnv) (venv : ValidateEnv)
    (store : Store) (user pass tok : String) (e : Nat)
    (hlogin : (login (AuthService.new u) env store user pass).1 =
      .ok { token := tok, expire_at := e })
    (hp : venv.poolOk = true) (hc : venv.connOk = true) :
    (validate (AuthService.new u) venv
      (login (AuthService.new u) env store user pass).2 tok).1 = .ok ⟨⟩ := by
  rcases hlu : passwordsLookup user with _ | pw
  · rw [login_eq_unknown_user _ _ _ _ _ hlu] at hlogin
    simp at hlogin
  · by_cases hpw : pw = pass
    · have hlu' : passwordsLookup user = some pass := by rw [hlu, hpw]
      cases hpo : env.poolOk
      · rw [login_eq_pool_abort _ _ _ _ _ hlu' hpo] at hlogin
        simp at hlogin
      · cases hso : env.setOk
        · rw [login_eq_set_abort _ _ _ _ _ hlu' hpo hso] at hlogin
          simp at hlogin
        · have hsucc := login_eq_success (AuthService.new u) env store user pass hlu' hpo hso
          rw [hsucc] at hlogin ⊢
          simp only [RpcOutcome.ok.injEq, LoginResponse.mk.injEq] at hlogin
          obtain ⟨htok, -⟩ := hlogin
          subst htok
          have hdec : utf8Decode (utf8Encode (AuthService.new u).session_id) =
              some (AuthService.new u).session_id :=
            utf8Decode_utf8Encode_ascii _ (hyphenated_ascii u)
          rw [validate_eq_owner_match _ _ _ _ _ hp hc (Store.get?_setEx_self _ _ _ _) hdec]
    · rw [login_eq_wrong_password _ _ _ _ _ pw hlu hpw] at hlogin
      simp at hlogin

/-- Witness for C3 at a concrete registered user and environment. -/
theorem login_then_validate_ok_witness :
    (validate (AuthService.new 5) { poolOk := true, connOk := true, connErrMsg := "e" }
      (login (AuthService.new 5) { poolOk := true, setOk := true, uuid := 9, now := 50 }
        ⟨[]⟩ "user" "user").2 (hyphenated 9)).1 = .ok ⟨⟩ :=
  login_then_validate_ok 5 { poolOk := true, setOk := true, uuid := 9, now := 50 }
    { poolOk := true, connOk := true, connErrMsg := "e" } ⟨[]⟩ "user" "user"
    (hyphenated 9) 110 rfl rfl rfl

/-- C4 counterexample: a token absent from the store is rejected with reason
text "wrong redis response: Nil", not the claimed "wrong session ID" (redis
GET on a missing key returns `Value::Nil`, which hits the handler's catch-all
arm). -/
theorem validate_missing_token_message_cex :
    ((validate (AuthService.new 0) { poolOk := true, connOk := true, connErrMsg := "e" }
        ⟨[]⟩ "not-a-real-token").1 =
      .err .unauthenticated "wrong redis response: Nil") ∧
    ((validate (AuthService.new 0) { poolOk := true, connOk := true, connErrMsg := "e" }
        ⟨[]⟩ "not-a-real-token").1 ≠
      .err .unauthenticated "wrong session ID") := by
  have h := validate_eq_not_found (AuthService.new 0)
    { poolOk := true, connOk := true, connErrMsg := "e" } ⟨[]⟩ "not-a-real-token" rfl rfl rfl
  constructor
  · rw [h]
  · rw [h]
    decide

/-- C4 (amended): for every token not present in the session store (never
issued, or expired and dropped by the store), `validate` fails with
UNAUTHENTICATED and the exact reason text "wrong redis response: Nil". -/
theorem validate_missing_token_unauthenticated (svc : AuthService) (env : ValidateEnv)
    (store : Store) (token : String) (hget : store.get? token = none)
    (hp : env.poolOk = true) (hc : env.connOk = true) :
    (validate svc env store token).1 =
      .err .unauthenticated "wrong redis response: Nil" := by
  rw [validate_eq_not_found svc env store token hp hc hget]

/-- Witness for the amended C4. -/
theorem validate_missing_token_unauthenticated_witness :
    (validate (AuthService.new 1) { poolOk := true, connOk := true, connErrMsg := "m" }
      ⟨[]⟩ "ghost").1 = .err .unauthenticated "wrong redis response: Nil" :=
  validate_missing_token_unauthenticated (AuthService.new 1)
    { poolOk := true, connOk := true, connErrMsg := "m" } ⟨[]⟩ "ghost" rfl rfl rfl

/-- C5 counterexample: a redis GET failure during `validate` is surfaced as
UNAUTHENTICATED carrying the store error's message, not as INTERNAL. -/
theorem validate_store_error_not_internal_cex :
    ((validate (AuthService.new 0)
        { poolOk := true, connOk := false, connErrMsg := "connection refused" }
        ⟨[]⟩ "tok").1 = .err .unauthenticated "connection refused") ∧
    ((validate (AuthService.new 0)
        { poolOk := true, connOk := false, connErrMsg := "connection refused" }
        ⟨[]⟩ "tok").1.code? ≠ some .internalErr) := by
  have h := validate_eq_conn_error (AuthService.new 0)
    { poolOk := true, connOk := false, connErrMsg := "connection refused" } ⟨[]⟩ "tok" rfl rfl
  constructor
  · rw [h]
  · rw [h]
    decide

/-- C5 (amended): when pool acquisition fails during `validate` the handler
aborts (unwrap panic); when the redis GET itself fails, `validate` returns
UNAUTHENTICATED carrying the error's message — in neither case an INTERNAL
status. -/
theorem validate_store_failure_behaviour (svc : AuthService) (env : ValidateEnv)
    (store : Store) (token : String) :
    (env.poolOk = false → (validate svc env store token).1 = .aborted) ∧
    (env.poolOk = true → env.connOk = false →
      (validate svc env store token).1 = .err .unauthenticated env.connErrMsg) := by
  constructor
  · intro h
    rw [validate_eq_pool_abort svc env store token h]
  · intro h1 h2
    rw [validate_eq_conn_error svc env store token h1 h2]

/-- Witness for the amended C5. -/
theorem validate_store_failure_behaviour_witness :
    ((validate (AuthService.new 2) { poolOk := false, connOk := true, connErrMsg := "x" }
        ⟨[]⟩ "t").1 = .aborted) ∧
    ((validate (AuthService.new 2) { poolOk := true, connOk := false, connErrMsg := "timeout" }
        ⟨[]⟩ "t").1 = .err .unauthenticated "timeout") :=
  ⟨(validate_store_failure_behaviour (AuthService.new 2)
      { poolOk := false, connOk := true, connErrMsg := "x" } ⟨[]⟩ "t").1 rfl,
    (validate_store_failure_behaviour (AuthService.new 2)
      { poolOk := true, connOk := false, connErrMsg := "timeout" } ⟨[]⟩ "t").2 rfl rfl⟩

/-- C6 (code bug): after successful credential verification, a pool-acquisition
or store-write failure during `login` makes the handler abort through
`.unwrap()` (a panic), instead of returning the claimed INTERNAL status. -/
theorem login_store_failure_aborts :
    ((login (AuthService.new 0) { poolOk := false, setOk := true, uuid := 7, now := 100 }
        ⟨[]⟩ "root" "admin").1 = .aborted) ∧
    ((login (AuthService.new 0) { poolOk := true, setOk := false, uuid := 7, now := 100 }
        ⟨[]⟩ "root" "admin").1 = .aborted) := by
  constructor
  · rw [login_eq_pool_abort (AuthService.new 0)
      { poolOk := false, setOk := true, uuid := 7, now := 100 } ⟨[]⟩ "root" "admin" rfl rfl]
  · rw [login_eq_set_abort (AuthService.new 0)
      { poolOk := true, setOk := false, uuid := 7, now := 100 } ⟨[]⟩ "root" "admin" rfl rfl rfl]

/-- C7: for every registered (user, password) pair, `login` succeeds, returns
a token in the issuer's hyphenated-hex format, and returns expireAt equal to
the locally read current time plus 60 seconds. -/
theorem login_registered_succeeds (svc : AuthService) (env : LoginEnv) (store : Store)
    (user pass : String) (hreg : (user, pass) ∈ USERS)
    (hp : env.poolOk = true) (hs : env.setOk = true) :
    (login svc env store user pass).1 =
      .ok { token := hyphenated env.uuid, expire_at := env.now + 60 } ∧
    isHyphenatedHex (hyphenated env.uuid) = true := by
  have hlu : passwordsLookup user = some pass := by
    simp only [USERS, List.mem_cons, List.not_mem_nil, or_false, Prod.mk.injEq] at hreg
    rcases hreg with ⟨h1, h2⟩ | ⟨h1, h2⟩ <;> subst h1 <;> subst h2 <;> rfl
  constructor
  · rw [login_eq_success svc env store user pass hlu hp hs]
  · exact hyphenated_isHyphenatedHex env.uuid

/-- Witness for C7 at the registered pair ("root", "admin"). -/
theorem login_registered_succeeds_witness :
    ((login (AuthService.new 0) { poolOk := true, setOk := true, uuid := 11, now := 1000 }
        ⟨[]⟩ "root" "admin").1 =
      .ok { token := hyphenated 11, expire_at := 1060 }) ∧
    isHyphenatedHex (hyphenated 11) = true :=
  login_registered_succeeds (AuthService.new 0)
    { poolOk := true, setOk := true, uuid := 11, now := 1000 } ⟨[]⟩ "root" "admin"
    (by decide) rfl rfl

/-- C8: `login` with an unregistered username fails with UNAUTHENTICATED and
the exact reason text "user not found" (never "wrong password"), and the
session store is left unchanged. -/
theorem login_unknown_user_behaviour (svc : AuthService) (env : LoginEnv) (store : Store)
    (user pass : String) (h : passwordsLookup user = none) :
    (login svc env store user pass).1 = .err .unauthenticated "user not found" ∧
    (login svc env store user pass).1 ≠ .err .unauthenticated "wrong password" ∧
    (login svc env store user pass).2 = store := by
  rw [login_eq_unknown_user svc env store user pass h]
  refine ⟨rfl, ?_, rfl⟩
  show RpcOutcome.err GrpcCode.unauthenticated "user not found" ≠
    RpcOutcome.err GrpcCode.unauthenticated "wrong password"
  decide

/-- Witness for C8 at the unregistered username "mallory". -/
theorem login_unknown_user_behaviour_witness :
    ((login (AuthService.new 0) { poolOk := true, setOk := true, uuid := 1, now := 2 }
        ⟨[]⟩ "mallory" "pw").1 = .err .unauthenticated "user not found") ∧
    ((login (AuthService.new 0) { poolOk := true, setOk := true, uuid := 1, now := 2 }
        ⟨[]⟩ "mallory" "pw").1 ≠ .err .unauthenticated "wrong password") ∧
    ((login (AuthService.new 0) { poolOk := true, setOk := true, uuid := 1, now := 2 }
        ⟨[]⟩ "mallory" "pw").2 = ⟨[]⟩) :=
  login_unknown_user_behaviour (AuthService.new 0)
    { poolOk := true, setOk := true, uuid := 1, now := 2 } ⟨[]⟩ "mallory" "pw" rfl

/-- C9: when the value fetched for a token is not decodable as UTF-8,
`validate` fails with an INTERNAL decode error, not UNAUTHENTICATED. -/
theorem validate_decode_error_internal (svc : AuthService) (env : ValidateEnv)
    (store : Store) (token : String) (bs : Bytes)
    (hget : store.get? token = some bs) (hdec : utf8Decode bs = none)
    (hp : env.poolOk = true) (hc : env.connOk = true) :
    (validate svc env store token).1 = .err .internalErr (utf8ErrorMsg bs) ∧
    (validate svc env store token).1.code? ≠ some .unauthenticated := by
  rw [validate_eq_decode_error svc env store token bs hp hc hget hdec]
  refine ⟨rfl, ?_⟩
  show (some GrpcCode.internalErr : Option GrpcCode) ≠ some GrpcCode.unauthenticated
  decide

/-- Witness for C9: the byte 0xFF is not valid UTF-8. -/
theorem validate_decode_error_internal_witness :
    ((validate (AuthService.new 0) { poolOk := true, connOk := true, connErrMsg := "e" }
        ⟨[⟨"t", [255], 60000⟩]⟩ "t").1 = .err .internalErr (utf8ErrorMsg [255])) ∧
    ((validate (AuthService.new 0) { poolOk := true, connOk := true, connErrMsg := "e" }
        ⟨[⟨"t", [255], 60000⟩]⟩ "t").1.code? ≠ some .unauthenticated) :=
  validate_decode_error_internal (AuthService.new 0)
    { poolOk := true, connOk := true, connErrMsg := "e" } ⟨[⟨"t", [255], 60000⟩]⟩ "t"
    [255] rfl rfl rfl rfl

/-- C10: the session store is mutated only by the success path of `login`
(which inserts exactly one session); every failing `login` leaves the store
unchanged, and `validate` never writes to or deletes from the store. -/
theorem store_mutated_only_by_login_success (svc : AuthService) (env : LoginEnv)
    (venv : ValidateEnv) (store : Store) (user pass token : String) :
    ((login svc env store user pass).2 = store ∨
      ((login svc env store user pass).1 =
          .ok { token := hyphenated env.uuid, expire_at := env.now + 60 } ∧
        (login svc env store user pass).2 =
          store.setEx (hyphenated env.uuid) (utf8Encode svc.session_id) (60 * 1000))) ∧
    (validate svc venv store token).2 = store := by
  constructor
  · rcases hlu : passwordsLookup user with _ | pw
    · left
      rw [login_eq_unknown_user svc env store user pass hlu]
    · by_cases hpw : pw = pass
      · have hlu' : passwordsLookup user = some pass := by rw [hlu, hpw]
        cases hpo : env.poolOk
        · left
          rw [login_eq_pool_abort svc env store user pass hlu' hpo]
        · cases hso : env.setOk
          · left
            rw [login_eq_set_abort svc env store user pass hlu' hpo hso]
          · right
            rw [login_eq_success svc env store user pass hlu' hpo hso]
            exact ⟨rfl, rfl⟩
      · left
        rw [login_eq_wrong_password svc env store user pass pw hlu hpw]
  · cases hpo : venv.poolOk
    · rw [validate_eq_pool_abort svc venv store token hpo]
    · cases hco : venv.connOk
      · rw [validate_eq_conn_error svc venv store token hpo hco]
      · rcases hbs : store.get? token with _ | bs
        · rw [validate_eq_not_found svc venv store token hpo hco hbs]
        · rcases hdec : utf8Decode bs with _ | sid
          · rw [validate_eq_decode_error svc venv store token bs hpo hco hbs hdec]
          · by_cases hsid : sid = svc.session_id
            · subst hsid
              rw [validate_eq_owner_match svc venv store token bs hpo hco hbs hdec]
            · rw [validate_eq_owner_mismatch svc venv store token bs sid hpo hco hbs hdec hsid]

end WebinarAuth
